import Mathlib

/-!
Verification development for the Videochiller repository: a FastAPI front end
(main.py) that fetches video metadata with yt-dlp, then spawns a helper script
(ytdl_pipe_merge.py) that pipes two yt-dlp fetch processes into an ffmpeg muxer
and streams the merged output back to the HTTP client chunk by chunk.

The definitions below are shallow embeddings of the corresponding Python
functions: command lines become Lists of Strings, byte strings become Lists of
Nats, process spawning becomes an explicit action trace, and the streaming
read loop becomes a recursive function over the muxer's output bytes together
with a disconnect schedule.
-/

namespace Videochiller

/-! ## Format strings built by stream_video_content (src/main.py lines 149-179) -/

/-- The video format expression built in main.py when a (truthy) quality
preference is supplied (lines 154-159), literal f-string concatenation. -/
def video_format_arg (q : String) : String :=
  ("(bestvideo[height<=" ++ q ++ "][ext=webm][protocol!=m3u8]/") ++
  ("bestvideo[height<=" ++ q ++ "][ext=mp4][protocol!=m3u8]/") ++
  ("bestvideo[height<=" ++ q ++ "][protocol!=m3u8]/") ++
  "bestvideo[ext=webm][protocol!=m3u8]/bestvideo[protocol!=m3u8])"

/-- The video format expression built in main.py when no quality preference is
supplied (lines 169-173). -/
def video_format_arg_default : String :=
  "(bestvideo[ext=webm][protocol!=m3u8]/" ++
  "bestvideo[ext=mp4][protocol!=m3u8]/" ++
  "bestvideo[protocol!=m3u8])"

/-- The audio format expression (identical in both branches, lines 160-163 and
174-177). -/
def audio_format_arg : String :=
  "(bestaudio[ext=webm][protocol!=m3u8]/" ++
  "bestaudio[ext=m4a][protocol!=m3u8]/bestaudio[protocol!=m3u8])"

/-! Specification-side view of the fallback chain, for the refinement claim
about ordering of stages (C5).  A stage is one alternative of the yt-dlp
format expression. -/

/-- One fallback stage of the video format expression: optional height bound,
optional container (ext) filter, and the protocol exclusion flag. -/
structure VStage where
  heightBound : Option String
  extFilter : Option String
  exclHls : Bool
deriving Repr, DecidableEq, BEq

/-- Render one stage the way yt-dlp format syntax writes it. -/
def renderVStage (s : VStage) : String :=
  "bestvideo" ++
  (match s.heightBound with
   | some q => "[height<=" ++ q ++ "]"
   | none => "") ++
  (match s.extFilter with
   | some e => "[ext=" ++ e ++ "]"
   | none => "") ++
  (if s.exclHls then "[protocol!=m3u8]" else "")

/-- Join alternatives with the / separator of yt-dlp format syntax. -/
def joinAlts : List String → String
  | [] => ""
  | [s] => s
  | s :: rest => s ++ "/" ++ joinAlts rest

/-- Render a fallback chain: stages joined by the / alternative separator,
wrapped in parentheses. -/
def renderVChain (l : List VStage) : String :=
  "(" ++ joinAlts (l.map renderVStage) ++ ")"

/-- The fallback chain the spec describes for a given quality preference P:
height<=P+webm, height<=P+mp4, height<=P+any, any-height+webm,
any-height+any, every stage carrying the protocol exclusion. -/
def specVideoStages (q : String) : List VStage :=
  [⟨some q, some "webm", true⟩,
   ⟨some q, some "mp4", true⟩,
   ⟨some q, none, true⟩,
   ⟨none, some "webm", true⟩,
   ⟨none, none, true⟩]

/-- Erase the height bound of a stage (the spec's chain with P absent). -/
def dropHeight (s : VStage) : VStage :=
  ⟨none, s.extFilter, s.exclHls⟩

/-! ## Command line built by stream_video_content for the child pipeline
script (src/main.py lines 143-184) -/

/-- Python truthiness of an optional string: None and the empty string are
falsy; main.py line 149 tests the quality preference this way. -/
def pyTruthy : Option String → Bool
  | some s => !s.isEmpty
  | none => false

/-- The arguments main.py passes to ytdl_pipe_merge.py after the interpreter
and the script path: positional url, then the format options, then
--cookies when the streaming cookie file path is truthy — line 181 guards
with Python truthiness, so None and the empty string both append nothing
(lines 146-183). -/
def streamScriptArgs (url : String) (qualityPref : Option String)
    (cookieFilePath : Option String) : List String :=
  [url] ++
  (if pyTruthy qualityPref then
    ["--video_format", video_format_arg (qualityPref.getD ""),
     "--audio_format", audio_format_arg]
  else
    ["--video_format", video_format_arg_default,
     "--audio_format", audio_format_arg]) ++
  (if pyTruthy cookieFilePath then ["--cookies", cookieFilePath.getD ""]
   else [])

/-! ## yt-dlp invocations -/

/-- Arguments of the metadata fetch invocation built by get_video_info
(src/main.py lines 69-75): --dump-json, then --cookies when a cookie path is
supplied and the file exists on disk, then --no-playlist -- url.  File
existence is a parameter of the embedding. -/
def get_video_info_args (url : String) (cookieFilePath : Option String)
    (cookieExists : Bool) : List String :=
  ["--dump-json"] ++
  (match cookieFilePath with
   | some p => if cookieExists then ["--cookies", p] else []
   | none => []) ++
  ["--no-playlist", "--", url]

/-- Full argv of one yt-dlp fetch process spawned by download_video in
src/ytdl_pipe_merge.py (lines 29 and 34): note the hardcoded cookies file. -/
def ytdlpFetchArgv (fmt url : String) : List String :=
  ["yt-dlp", "--cookies", "cookies.Gemini.txt", "--no-playlist",
   "-f", fmt, "-o", "-", "--", url]

/-- Full argv of the ffmpeg muxer process built by download_video in
src/ytdl_pipe_merge.py (lines 45-61): inputs are the two inherited pipe
descriptors, output is the given filename or pipe:1 when streaming. -/
def ffmpegArgv (outputFilename : Option String) : List String :=
  ["ffmpeg", "-hide_banner", "-y",
   "-i", "pipe:3", "-i", "pipe:4",
   "-map", "0:v", "-map", "1:a",
   "-c:v", "copy", "-c:a", "copy",
   "-f", "webm"] ++
  [match outputFilename with
   | some f => f
   | none => "pipe:1"]

/-! ## Action trace of download_video (src/ytdl_pipe_merge.py lines 28-92) -/

/-- Spawn description: argv plus the extra file descriptors the child
inherits (the pass_fds argument of Popen). -/
structure SpawnInfo where
  argv : List String
  passFds : List Nat
deriving Repr, DecidableEq

/-- Observable orchestration actions of the pipeline script. -/
inductive PipeAction
  | spawn (name : String) (info : SpawnInfo)
  | closeFd (fd : Nat)
  | streamChunks
deriving Repr, DecidableEq

/-- The ordered action trace of download_video: spawn the video fetch, spawn
the audio fetch, spawn ffmpeg with both producers' stdout descriptors in
pass_fds, close the parent's copies of those two descriptors, then (when
streaming to stdout) relay ffmpeg's output.  vFd and aFd stand for the
fileno of the video and audio process's stdout pipes. -/
def downloadVideoTrace (url vf af : String) (output : Option String)
    (vFd aFd : Nat) : List PipeAction :=
  [PipeAction.spawn "video" ⟨ytdlpFetchArgv vf url, []⟩,
   PipeAction.spawn "audio" ⟨ytdlpFetchArgv af url, []⟩,
   PipeAction.spawn "ffmpeg" ⟨ffmpegArgv output, [vFd, aFd]⟩,
   PipeAction.closeFd vFd,
   PipeAction.closeFd aFd] ++
  (if output.isNone then [PipeAction.streamChunks] else [])

/-- Successive (option, value) pairs of an argv whose option token is a codec
selector (-c:v or -c:a), scanning every adjacent pair. -/
def codecArgsOf : List String → List (String × String)
  | a :: b :: rest =>
    if a = "-c:v" ∨ a = "-c:a" then (a, b) :: codecArgsOf (b :: rest)
    else codecArgsOf (b :: rest)
  | _ => []

/-- Successive values following a -map option token in an argv. -/
def mapValuesOf : List String → List String
  | a :: b :: rest =>
    if a = "-map" then b :: mapValuesOf (b :: rest)
    else mapValuesOf (b :: rest)
  | _ => []

/-! ## The streaming read loop of stream_video_content
(src/main.py lines 198-258)

The loop is modelled over the muxer's total stdout output, a flat byte list:
a read of up to chunk_size bytes takes a prefix of the remaining bytes, and a
read on an exhausted stream returns zero bytes (EOF).  The client disconnect
oracle is a schedule: the iteration index from which request.is_disconnected
returns True (None when the client never disconnects). -/

/-- The chunk size of the read loop, src/main.py line 199. -/
def chunk_size : Nat := 8 * 1024

/-- Whether the disconnect check at iteration i reports a disconnect, given
the iteration index from which the client counts as disconnected. -/
def isDisconnectedAt (dAt : Option Nat) (i : Nat) : Bool :=
  match dAt with
  | some k => decide (k ≤ i)
  | none => false

/-- The observable operations of one pass through the loop body. -/
inductive StreamOp
  | checkDisc
  | readChunk
  | sendChunk
deriving Repr, DecidableEq

/-- How the read loop ended: disconnect detected, or zero-byte read. -/
inductive LoopEnd
  | disconnect
  | eofOut
deriving Repr, DecidableEq

/-- Result of the read loop: chunks yielded in order, the exit reason, and
the operation trace. -/
structure LoopRes where
  sent : List (List Nat)
  endKind : LoopEnd
  ops : List StreamOp
deriving Repr, DecidableEq

/-- The while-loop of stream_video_content (src/main.py lines 200-226):
each iteration checks disconnect, then reads up to chunk_size bytes from the
muxer's stdout; a zero-byte read breaks the loop, otherwise the chunk is
yielded and the loop continues. -/
def streamLoop (dAt : Option Nat) (i : Nat) : List Nat → LoopRes
  | [] =>
    if isDisconnectedAt dAt i then ⟨[], .disconnect, [.checkDisc]⟩
    else ⟨[], .eofOut, [.checkDisc, .readChunk]⟩
  | b :: bs =>
    if isDisconnectedAt dAt i then ⟨[], .disconnect, [.checkDisc]⟩
    else
      let r := streamLoop dAt (i + 1) ((b :: bs).drop chunk_size)
      ⟨(b :: bs).take chunk_size :: r.sent, r.endKind,
        .checkDisc :: .readChunk :: .sendChunk :: r.ops⟩
termination_by l => l.length
decreasing_by simp [chunk_size]; omega

/-- Timeout of the graceful wait after terminate on the disconnect path,
src/main.py line 206. -/
def graceful_timeout_seconds : Nat := 5

/-- Timeout of the graceful wait in the finally block, src/main.py
line 250. -/
def final_cleanup_timeout_seconds : Nat := 2

/-- Behaviour of the child pipeline process, the part the controller cannot
choose: whether its returncode is still None when the disconnect branch runs,
and how many seconds after a terminate signal it exits (none: never). -/
structure ChildBehavior where
  runningAtDisconnect : Bool
  exitDelayAfterTerm : Option Nat
deriving Repr, DecidableEq

/-- Signals sent during one shutdown phase and whether the child is still
running afterwards. -/
structure Cleanup where
  termSignals : Nat
  killSignals : Nat
  running : Bool
deriving Repr, DecidableEq

/-- The disconnect branch of the loop (src/main.py lines 203-215): if the
process is still running, terminate it, wait up to 5 seconds, and kill plus
reap if it did not exit within the timeout. -/
def disconnectShutdown (cb : ChildBehavior) : Cleanup :=
  if cb.runningAtDisconnect then
    match cb.exitDelayAfterTerm with
    | some d =>
      if d ≤ graceful_timeout_seconds then ⟨1, 0, false⟩ else ⟨1, 1, false⟩
    | none => ⟨1, 1, false⟩
  else ⟨0, 0, false⟩

/-- The finally block (src/main.py lines 244-257): if the process is still
running, terminate, wait up to 2 seconds, kill plus reap on timeout. -/
def finalCleanup (running : Bool) (exitDelay : Option Nat) : Cleanup :=
  if running then
    match exitDelay with
    | some d =>
      if d ≤ final_cleanup_timeout_seconds then ⟨1, 0, false⟩ else ⟨1, 1, false⟩
    | none => ⟨1, 1, false⟩
  else ⟨0, 0, false⟩

/-- Overall outcome of stream_video_content for one request: chunks sent,
total terminate and kill signals sent to the child pipeline process, and
whether that process is still running after the finally block. -/
structure RunResult where
  sent : List (List Nat)
  termSignals : Nat
  killSignals : Nat
  childRunning : Bool
deriving Repr, DecidableEq

/-- stream_video_content end to end (src/main.py lines 198-258): run the
read loop; on the disconnect exit run the disconnect shutdown; then
process.wait() on line 229 reaps the child (it blocks until the child has
exited, so the child is not running when it returns); finally the cleanup
block re-checks and terminates or kills a child that is somehow still
running. -/
def stream_video_content_run (dAt : Option Nat) (out : List Nat)
    (cb : ChildBehavior) : RunResult :=
  let res := streamLoop dAt 0 out
  match res.endKind with
  | .disconnect =>
    let c1 := disconnectShutdown cb
    let c2 := finalCleanup c1.running cb.exitDelayAfterTerm
    ⟨res.sent, c1.termSignals + c2.termSignals,
      c1.killSignals + c2.killSignals, c2.running⟩
  | .eofOut =>
    let c2 := finalCleanup false cb.exitDelayAfterTerm
    ⟨res.sent, c2.termSignals, c2.killSignals, c2.running⟩

/-! ## Metadata fetch result handling (src/main.py lines 67-98) -/

/-- Whether a byte is a UTF-8 continuation byte. -/
def isUtf8Cont (b : Nat) : Bool :=
  0x80 ≤ b && b ≤ 0xBF

/-- Strict UTF-8 decoding of a byte list, None on any invalid sequence
(overlong forms, surrogates and out-of-range values rejected): the model of
Python bytes.decode with utf-8 and strict errors. -/
def utf8Decode : List Nat → Option (List Char)
  | [] => some []
  | b :: rest =>
    if b < 0x80 then
      (utf8Decode rest).map (fun cs => Char.ofNat b :: cs)
    else if b < 0xC2 then none
    else if b ≤ 0xDF then
      match rest with
      | c1 :: rest2 =>
        if isUtf8Cont c1 then
          (utf8Decode rest2).map
            (fun cs => Char.ofNat ((b - 0xC0) * 0x40 + (c1 - 0x80)) :: cs)
        else none
      | _ => none
    else if b ≤ 0xEF then
      match rest with
      | c1 :: c2 :: rest2 =>
        if (if b = 0xE0 then 0xA0 ≤ c1 && c1 ≤ 0xBF
            else if b = 0xED then 0x80 ≤ c1 && c1 ≤ 0x9F
            else isUtf8Cont c1) && isUtf8Cont c2 then
          (utf8Decode rest2).map
            (fun cs => Char.ofNat
              ((b - 0xE0) * 0x1000 + (c1 - 0x80) * 0x40 + (c2 - 0x80)) :: cs)
        else none
      | _ => none
    else if b ≤ 0xF4 then
      match rest with
      | c1 :: c2 :: c3 :: rest2 =>
        if (if b = 0xF0 then 0x90 ≤ c1 && c1 ≤ 0xBF
            else if b = 0xF4 then 0x80 ≤ c1 && c1 ≤ 0x8F
            else isUtf8Cont c1) && isUtf8Cont c2 && isUtf8Cont c3 then
          (utf8Decode rest2).map
            (fun cs => Char.ofNat
              ((b - 0xF0) * 0x40000 + (c1 - 0x80) * 0x1000 +
                (c2 - 0x80) * 0x40 + (c3 - 0x80)) :: cs)
        else none
      | _ => none
    else none

/-- Latin-1 decoding: total, every byte maps to the character of its code
point (the model of bytes.decode with latin-1; with errors ignored it can
never fail). -/
def latin1Decode (bs : List Nat) : List Char :=
  bs.map (fun b => Char.ofNat (b % 256))

/-- The best-effort stderr decoding of get_video_info (src/main.py lines
83-86): UTF-8 first, latin-1 on a decode error.  Total by construction. -/
def bestEffortDecode (bs : List Nat) : List Char :=
  match utf8Decode bs with
  | some cs => cs
  | none => latin1Decode bs

/-- Python str whitespace characters (the ASCII ones). -/
def pyIsSpace (c : Char) : Bool :=
  c = ' ' || c = '\t' || c = '\n' || c = '\x0d' ||
  c = Char.ofNat 11 || c = Char.ofNat 12

/-- Python str.strip(): remove leading and trailing whitespace. -/
def pyStrip (cs : List Char) : List Char :=
  ((cs.dropWhile pyIsSpace).reverse.dropWhile pyIsSpace).reverse

/-- Completed subprocess observation: exit code, stdout bytes, stderr
bytes. -/
structure ProcResult where
  returncode : Int
  stdout : List Nat
  stderr : List Nat
deriving Repr, DecidableEq

/-- Outcome of get_video_info: parsed info (represented by the decoded
stdout text handed to the JSON parser) or an HTTPException with a status
code and a detail message. -/
inductive InfoResult
  | ok (info : List Char)
  | httpError (status : Nat) (detail : List Char)
deriving Repr, DecidableEq

/-- get_video_info result handling (src/main.py lines 79-98), parameterised
by the JSON parser success predicate (json.loads is an external library):
non-zero exit yields a 400 whose detail embeds the best-effort-decoded,
stripped stderr; a zero exit with stdout that does not decode as UTF-8
yields a 500; a zero exit whose decoded stdout fails to parse yields a
500. -/
def get_video_info_res (parseOk : List Char → Bool) (pr : ProcResult) :
    InfoResult :=
  if pr.returncode ≠ 0 then
    .httpError 400
      ("Failed to get video info: ".toList ++ pyStrip (bestEffortDecode pr.stderr))
  else
    match utf8Decode pr.stdout with
    | none => .httpError 500 "Error decoding video information (non-UTF8).".toList
    | some cs =>
      if parseOk cs then .ok cs
      else .httpError 500 "Error parsing video information.".toList

/-! ## The action log (src/main.py lines 34, 48-52, 102-125, 343-356) -/

/-- The in-memory action log: a mapping from download id to last action,
modelled as an association list with unique keys (a Python dict). -/
abbrev ActionLog := List (String × String)

/-- Dict lookup. -/
def logGet (log : ActionLog) (id : String) : Option String :=
  match log.find? (fun p => p.1 == id) with
  | some p => some p.2
  | none => none

/-- Dict assignment: binds id to a, overwriting any previous binding. -/
def logSet (log : ActionLog) (id a : String) : ActionLog :=
  (id, a) :: log.filter (fun p => p.1 != id)

/-- Dict deletion of every binding of id. -/
def logDelete (log : ActionLog) (id : String) : ActionLog :=
  log.filter (fun p => p.1 != id)

/-- update_action_log (src/main.py lines 48-52): sets the entry when the id
is truthy, otherwise does nothing. -/
def update_action_log (downloadId : Option String) (action : String)
    (log : ActionLog) : ActionLog :=
  if pyTruthy downloadId then logSet log (downloadId.getD "") action else log

/-- The delay in seconds before the scheduled log deletion runs
(src/main.py line 195). -/
def log_delete_delay_seconds : Nat := 2

/-- The state change performed by delete_log_after_delay once the delay has
elapsed (src/main.py lines 102-125): for a truthy id, delete the entry if
present, and do nothing (log a message, no error) when it is absent. -/
def delete_log_after_delay (downloadId : Option String) (log : ActionLog) :
    ActionLog :=
  if pyTruthy downloadId then
    if (logGet log (downloadId.getD "")).isSome then
      logDelete log (downloadId.getD "")
    else log
  else log

/-- Response of GET /log/{download_id}: the JSON body fields or an
HTTPException. -/
inductive LogResult
  | ok (download_id last_action : String)
  | httpError (status : Nat) (detail : String)
deriving Repr, DecidableEq

/-- get_log_entry (src/main.py lines 343-356): 404 when no entry exists,
otherwise a body holding the id and the last action. -/
def get_log_entry_res (log : ActionLog) (downloadId : String) : LogResult :=
  match logGet log downloadId with
  | none => .httpError 404 "Log not found for this ID."
  | some a => .ok downloadId a

/-! ## The command-line entry of ytdl_pipe_merge.py
(src/ytdl_pipe_merge.py lines 174-213)

The script declares one positional argument (url) and the value-taking
options -vf and --video_format, -af and --audio_format, -o and --output;
the help options -h and --help are added by the library.  Any other option token makes the argument parsing
exit with an error before download_video is called.  The parsing model below
embeds the relevant slice of the argparse library: long options match by
unambiguous dash-dash prefixes, the token -- switches to positional-only
mode, and a second positional is an unrecognized-arguments error. -/

/-- Default of --video_format, src/ytdl_pipe_merge.py line 182. -/
def child_vf_default : String := "bestvideo[ext=webm]"

/-- Default of --audio_format, src/ytdl_pipe_merge.py line 192. -/
def child_af_default : String := "bestaudio[ext=webm]"

/-- The long option strings the child's parser knows. -/
def childLongOptions : List String :=
  ["--help", "--video_format", "--audio_format", "--output"]

/-- Does the token start with a dash? -/
def tokStartsDash (s : String) : Bool :=
  match s.data with
  | c :: _ => c = '-'
  | [] => false

/-- Does the token start with two dashes? -/
def tokStartsDashDash (s : String) : Bool :=
  match s.data with
  | c1 :: c2 :: _ => c1 = '-' && c2 = '-'
  | _ => false

/-- The known long options the token abbreviates (prefix match on the
option string, exact match included). -/
def longMatches (tok : String) : List String :=
  childLongOptions.filter (fun o => tok.data.isPrefixOf o.data)

/-- Accumulated parse state: the positional slot, current option values,
and whether a -- separator has been seen. -/
structure ParseState where
  url : Option String
  vf : String
  af : String
  output : Option String
  posOnly : Bool
deriving Repr, DecidableEq

/-- The parse state before any token is consumed. -/
def initParseState : ParseState :=
  ⟨none, child_vf_default, child_af_default, none, false⟩

/-- Store the value of a matched long option. -/
def setLongOpt (st : ParseState) (o v : String) : ParseState :=
  if o = "--video_format" then { st with vf := v }
  else if o = "--audio_format" then { st with af := v }
  else { st with output := some v }

/-- Store the value of a matched short option. -/
def setShortOpt (st : ParseState) (o v : String) : ParseState :=
  if o = "-vf" then { st with vf := v }
  else if o = "-af" then { st with af := v }
  else { st with output := some v }

/-- Outcome of parse_args: the parsed namespace, or an exit (error or help)
before download_video can run. -/
inductive ChildParse
  | ok (url vf af : String) (output : Option String)
  | exitError
  | exitHelp
deriving Repr, DecidableEq

/-- Fill the positional url slot; a second positional is an error. -/
def takePositional (st : ParseState) (tok : String) : Option ParseState :=
  match st.url with
  | none => some { st with url := some tok }
  | some _ => none

/-- The argparse token loop for the child's declared arguments. -/
def parseTokens (st : ParseState) : List String → ChildParse
  | [] =>
    match st.url with
    | some u => .ok u st.vf st.af st.output
    | none => .exitError
  | tok :: rest =>
    if st.posOnly then
      match takePositional st tok with
      | some st2 => parseTokens st2 rest
      | none => .exitError
    else if !tokStartsDash tok || tok = "-" then
      match takePositional st tok with
      | some st2 => parseTokens st2 rest
      | none => .exitError
    else if tok = "--" then
      parseTokens { st with posOnly := true } rest
    else if tokStartsDashDash tok then
      match longMatches tok with
      | [o] =>
        if o = "--help" then .exitHelp
        else
          match rest.head? with
          | some v => parseTokens (setLongOpt st o v) rest.tail
          | none => .exitError
      | _ => .exitError
    else if tok = "-h" then .exitHelp
    else if tok = "-vf" || tok = "-af" || tok = "-o" then
      match rest.head? with
      | some v => parseTokens (setShortOpt st tok v) rest.tail
      | none => .exitError
    else .exitError
termination_by l => l.length
decreasing_by all_goals (simp [List.length_tail]; try omega)

/-- What the child process does for a given argv tail: exit during argument
parsing or URL validation, or run download_video with the parsed values
(src/ytdl_pipe_merge.py lines 207-213). -/
inductive ChildRun
  | rejected
  | runs (trace : List PipeAction)
deriving Repr, DecidableEq

/-- Does the url pass the scheme check of src/ytdl_pipe_merge.py line 209? -/
def urlSchemeOk (url : String) : Bool :=
  "http://".data.isPrefixOf url.data || "https://".data.isPrefixOf url.data

/-- The __main__ block of ytdl_pipe_merge.py: parse the argv tail, validate
the url scheme, then run download_video (whose spawns are returned as a
trace; vFd and aFd are the producers' stdout descriptors). -/
def ytdl_pipe_merge_main (tokens : List String) (vFd aFd : Nat) : ChildRun :=
  match parseTokens initParseState tokens with
  | .exitError => .rejected
  | .exitHelp => .rejected
  | .ok url vf af out =>
    if urlSchemeOk url then .runs (downloadVideoTrace url vf af out vFd aFd)
    else .rejected

/-! ## The POST /download endpoint (src/main.py lines 273-341) -/

/-- The form fields the download endpoint declares (src/main.py lines
276-278): url, quality and download_id.  There is no container field. -/
def download_form_fields : List String := ["url", "quality", "download_id"]

/-- The output extension the endpoint uses, hardcoded, src/main.py
line 296. -/
def download_output_ext : String := "mkv"

/-- The response media type the endpoint uses, hardcoded, src/main.py
line 297. -/
def download_media_type : String := "video/x-matroska"

end Videochiller

namespace Videochiller

/-! # Theorems settling the claims -/

/-- C2: for every streaming request the pipeline script spawns the
video-fetch process first, then the audio-fetch process, and spawns the
ffmpeg muxer only after both producers exist, passing both producers'
stdout descriptors to it through pass_fds; the two actions immediately
following the muxer spawn close the orchestrator's own copies of those two
descriptors. -/
theorem c2_spawn_order_and_descriptor_handoff (url vf af : String)
    (output : Option String) (vFd aFd : Nat) :
    ∃ tail, downloadVideoTrace url vf af output vFd aFd =
      [PipeAction.spawn "video" ⟨ytdlpFetchArgv vf url, []⟩,
       PipeAction.spawn "audio" ⟨ytdlpFetchArgv af url, []⟩,
       PipeAction.spawn "ffmpeg" ⟨ffmpegArgv output, [vFd, aFd]⟩,
       PipeAction.closeFd vFd,
       PipeAction.closeFd aFd] ++ tail :=
  ⟨_, rfl⟩

/-- C4: the muxer command line built by the pipeline always selects copy for
both the video and the audio codec and never any other codec value, and maps
exactly the video stream of the first input (0:v) and the audio stream of
the second input (1:a); stated over the muxer spawn of the pipeline trace
for arbitrary url and format inputs, in the streaming mode main.py uses. -/
theorem c4_muxer_codec_copy_and_maps (url vf af : String) (vFd aFd : Nat) :
    PipeAction.spawn "ffmpeg" ⟨ffmpegArgv none, [vFd, aFd]⟩ ∈
      downloadVideoTrace url vf af none vFd aFd ∧
    (∀ output : Option String,
      codecArgsOf (ffmpegArgv output) = [("-c:v", "copy"), ("-c:a", "copy")] ∧
      mapValuesOf (ffmpegArgv output) = ["0:v", "1:a"]) := by
  constructor
  · simp [downloadVideoTrace]
  · intro output
    cases output with
    | none => constructor <;> decide
    | some f => constructor <;> simp [ffmpegArgv, codecArgsOf, mapValuesOf]

/-- C8 counterexample: the streaming fetch invocation of yt-dlp does not
have exactly the form tool --no-playlist -f fmt -o - -- url; it carries a
hardcoded cookies option first. -/
theorem c8_counterexample :
    ytdlpFetchArgv "bv" "https://example.com" ≠
      ["yt-dlp", "--no-playlist", "-f", "bv", "-o", "-", "--",
       "https://example.com"] := by decide

/-- C8 amended: every invocation of yt-dlp places the end-of-options marker
immediately before the URL as the final two arguments; the metadata fetch
has the form --dump-json [--cookies path when the info cookie file exists]
--no-playlist -- url, and each streaming fetch has the form
--cookies cookies.Gemini.txt --no-playlist -f fmt -o - -- url. -/
theorem c8_amended_argument_forms (url fmt p : String) (cookieExists : Bool) :
    ytdlpFetchArgv fmt url =
      ["yt-dlp", "--cookies", "cookies.Gemini.txt", "--no-playlist",
       "-f", fmt, "-o", "-", "--", url] ∧
    (∃ front, ytdlpFetchArgv fmt url = front ++ ["--", url]) ∧
    get_video_info_args url none cookieExists =
      ["--dump-json", "--no-playlist", "--", url] ∧
    get_video_info_args url (some p) true =
      ["--dump-json", "--cookies", p, "--no-playlist", "--", url] ∧
    get_video_info_args url (some p) false =
      ["--dump-json", "--no-playlist", "--", url] ∧
    (∃ front, get_video_info_args url (some p) cookieExists =
      front ++ ["--", url]) := by
  refine ⟨rfl, ⟨["yt-dlp", "--cookies", "cookies.Gemini.txt", "--no-playlist",
    "-f", fmt, "-o", "-"], rfl⟩, rfl, rfl, rfl, ?_⟩
  cases cookieExists with
  | true => exact ⟨["--dump-json", "--cookies", p, "--no-playlist"], rfl⟩
  | false => exact ⟨["--dump-json", "--no-playlist"], rfl⟩

/-- C6 counterexample: the download endpoint declares no container form
field at all, so no request can carry a container value "flac" to be
coerced (and no coercion warning exists in the endpoint). -/
theorem c6_counterexample : "container" ∉ download_form_fields := by decide

/-- C6 amended: the download endpoint accepts exactly the form fields url,
quality and download_id (no container field); the output container is
always mkv and the response Content-Type is always video/x-matroska,
with no coercion step involved. -/
theorem c6_amended_fixed_container :
    download_form_fields = ["url", "quality", "download_id"] ∧
    "container" ∉ download_form_fields ∧
    download_output_ext = "mkv" ∧
    download_media_type = "video/x-matroska" := by
  refine ⟨rfl, by decide, rfl, rfl⟩

/-- Reading back a just-set log entry returns the stored action. -/
theorem logGet_logSet (log : ActionLog) (id a : String) :
    logGet (logSet log id a) id = some a := by
  simp [logGet, logSet]

/-- After deleting an id, lookup of that id finds nothing. -/
theorem logGet_logDelete (log : ActionLog) (id : String) :
    logGet (logDelete log id) id = none := by
  induction log with
  | nil => rfl
  | cons h t ih =>
    by_cases hc : h.1 = id
    · simpa [logDelete, logGet, hc] using ih
    · simpa [logDelete, logGet, hc] using ih

/-- The scheduled deletion of an id that is absent from the log leaves the
log unchanged (a no-op, not an error). -/
theorem delete_log_absent_noop (l : ActionLog) (i : String)
    (h : logGet l i = none) : delete_log_after_delay (some i) l = l := by
  unfold delete_log_after_delay
  cases hp : pyTruthy (some i) <;> simp [hp, h]

/-- A nonempty string is truthy in the Python sense. -/
theorem pyTruthy_of_ne (id : String) (hid : id ≠ "") :
    pyTruthy (some id) = true := by
  have hne : id.isEmpty = false := by
    rw [Bool.eq_false_iff]
    intro he
    exact hid ((String.isEmpty_iff id).mp he)
  simp [pyTruthy, hne]

/-- C9: a log entry set for a download id is retrievable through the log
endpoint (body holding the id and the last action) while it exists; once
the scheduled deletion (delay constant 2 seconds) has run, the endpoint
returns 404 with detail "Log not found for this ID."; and the delayed
deletion of an already-absent id is a no-op, not an error. -/
theorem c9_log_lifecycle (log : ActionLog) (id a : String) (hid : id ≠ "") :
    get_log_entry_res (update_action_log (some id) a log) id =
      LogResult.ok id a ∧
    get_log_entry_res
        (delete_log_after_delay (some id) (update_action_log (some id) a log))
        id =
      LogResult.httpError 404 "Log not found for this ID." ∧
    (∀ l i, logGet l i = none → delete_log_after_delay (some i) l = l) ∧
    log_delete_delay_seconds = 2 := by
  have hT := pyTruthy_of_ne id hid
  have hset : update_action_log (some id) a log = logSet log id a := by
    simp [update_action_log, hT]
  refine ⟨?_, ?_, fun l i h => delete_log_absent_noop l i h, rfl⟩
  · rw [hset]
    simp [get_log_entry_res, logGet_logSet]
  · rw [hset]
    have hdel : delete_log_after_delay (some id) (logSet log id a) =
        logDelete (logSet log id a) id := by
      simp [delete_log_after_delay, hT, logGet_logSet]
    rw [hdel]
    simp [get_log_entry_res, logGet_logDelete]

/-- C9 witness at the spec's concrete id. -/
theorem c9_witness :
    get_log_entry_res (update_action_log (some "abc123") "started" [])
      "abc123" = LogResult.ok "abc123" "started" ∧
    get_log_entry_res
        (delete_log_after_delay (some "abc123")
          (update_action_log (some "abc123") "started" []))
        "abc123" =
      LogResult.httpError 404 "Log not found for this ID." ∧
    log_delete_delay_seconds = 2 := by
  have h := c9_log_lifecycle [] "abc123" "started" (by decide)
  exact ⟨h.1, h.2.1, h.2.2.2⟩

/-- C7: a non-zero metadata-fetch exit yields HTTP 400 whose detail is the
literal message followed by the stripped stderr text, decoded as UTF-8 with
a total latin-1 fallback used exactly when strict UTF-8 decoding fails (so
undecodable bytes never raise); a zero exit whose decoded stdout fails the
JSON parse yields HTTP 500. -/
theorem c7_metadata_error_handling (parseOk : List Char → Bool)
    (pr : ProcResult) :
    (pr.returncode ≠ 0 →
      get_video_info_res parseOk pr =
        InfoResult.httpError 400
          ("Failed to get video info: ".toList ++
            pyStrip (bestEffortDecode pr.stderr))) ∧
    (∀ bs, utf8Decode bs = none → bestEffortDecode bs = latin1Decode bs) ∧
    (pr.returncode = 0 → ∀ cs, utf8Decode pr.stdout = some cs →
      parseOk cs = false →
      get_video_info_res parseOk pr =
        InfoResult.httpError 500 "Error parsing video information.".toList) := by
  refine ⟨fun h => by simp [get_video_info_res, h],
    fun bs h => by simp [bestEffortDecode, h], ?_⟩
  intro h0 cs hdec hp
  simp [get_video_info_res, h0, hdec, hp]

set_option maxRecDepth 4000 in
/-- C5: for every supplied quality preference P the generated video format
expression is exactly the rendering of the fallback stages height-bound+webm,
height-bound+mp4, height-bound+any, any-height+webm, any-height+any, in that
order, every stage carrying the protocol exclusion, and the expression is
never empty; without a preference the code's expression is the same chain
with the height bound removed (the then-repeated stages collapsed to their
first occurrence), also never empty. -/
theorem c5_video_format_fallback_chain (q : String) :
    video_format_arg q = renderVChain (specVideoStages q) ∧
    (∀ s ∈ specVideoStages q, s.exclHls = true) ∧
    video_format_arg q ≠ "" ∧
    video_format_arg_default =
      renderVChain (((specVideoStages q).map dropHeight).eraseDups) ∧
    video_format_arg_default ≠ "" := by
  refine ⟨?_, ?_, ?_, ?_, ?_⟩
  · apply String.ext
    simp [video_format_arg, renderVChain, specVideoStages, renderVStage,
      joinAlts, String.data_append]
  · intro s hs
    simp [specVideoStages] at hs
    rcases hs with h | h | h | h | h <;> subst h <;> rfl
  · intro h
    have h2 := congrArg String.data h
    simp [video_format_arg, String.data_append] at h2
  · have hd : ((specVideoStages q).map dropHeight).eraseDups =
        [⟨none, some "webm", true⟩, ⟨none, some "mp4", true⟩,
         ⟨none, none, true⟩] := by
      simp only [specVideoStages, dropHeight, List.map_cons, List.map_nil]
      decide
    rw [hd]
    decide
  · intro h
    have h2 := congrArg String.data h
    simp [video_format_arg_default, String.data_append] at h2

/-- On the disconnect exit of the loop the controller runs the disconnect
shutdown and then the final cleanup. -/
theorem run_disconnect_eq (dAt : Option Nat) (out : List Nat)
    (cb : ChildBehavior)
    (h : (streamLoop dAt 0 out).endKind = LoopEnd.disconnect) :
    stream_video_content_run dAt out cb =
      ⟨(streamLoop dAt 0 out).sent,
       (disconnectShutdown cb).termSignals +
         (finalCleanup (disconnectShutdown cb).running
           cb.exitDelayAfterTerm).termSignals,
       (disconnectShutdown cb).killSignals +
         (finalCleanup (disconnectShutdown cb).running
           cb.exitDelayAfterTerm).killSignals,
       (finalCleanup (disconnectShutdown cb).running
         cb.exitDelayAfterTerm).running⟩ := by
  simp only [stream_video_content_run, h]

/-- C1: when a client disconnect is detected during the streaming loop, the
controller sends the child pipeline process at most one graceful terminate
signal, sends a kill only if the child was still running and did not exit
within the 5-second graceful timeout, and after the final cleanup completes
the child process spawned for the request is no longer running. -/
theorem c1_disconnect_cleanup (dAt : Option Nat) (out : List Nat)
    (cb : ChildBehavior)
    (h : (streamLoop dAt 0 out).endKind = LoopEnd.disconnect) :
    (stream_video_content_run dAt out cb).termSignals ≤ 1 ∧
    (0 < (stream_video_content_run dAt out cb).killSignals →
      cb.runningAtDisconnect = true ∧
      ∀ d, cb.exitDelayAfterTerm = some d → graceful_timeout_seconds < d) ∧
    (stream_video_content_run dAt out cb).childRunning = false := by
  rw [run_disconnect_eq dAt out cb h]
  rcases cb with ⟨r, e⟩
  cases r with
  | false =>
    cases e <;> simp [disconnectShutdown, finalCleanup]
  | true =>
    cases e with
    | none => simp [disconnectShutdown, finalCleanup]
    | some d =>
      by_cases hd : d ≤ graceful_timeout_seconds <;>
        simp [disconnectShutdown, finalCleanup, hd]
      omega

/-- C1 witness: a disconnect before the first chunk, a child that never
honours terminate. -/
theorem c1_witness :
    (streamLoop (some 0) 0 [7]).endKind = LoopEnd.disconnect ∧
    ((stream_video_content_run (some 0) [7] ⟨true, none⟩).termSignals ≤ 1 ∧
      (0 < (stream_video_content_run (some 0) [7] ⟨true, none⟩).killSignals →
        (ChildBehavior.mk true none).runningAtDisconnect = true ∧
        ∀ d, (ChildBehavior.mk true none).exitDelayAfterTerm = some d →
          graceful_timeout_seconds < d) ∧
      (stream_video_content_run (some 0) [7] ⟨true, none⟩).childRunning =
        false) :=
  ⟨by simp [streamLoop, isDisconnectedAt],
   c1_disconnect_cleanup (some 0) [7] ⟨true, none⟩
     (by simp [streamLoop, isDisconnectedAt])⟩

/-- Well-formed loop traces: every iteration checks for disconnect first and
then reads at most one chunk; a trace ends either right after a disconnect
check or right after a zero-byte read; every completed iteration sends the
single chunk it read before the next iteration starts (so at most one chunk
is in flight at a time). -/
inductive OpBlocks : List StreamOp → Prop
  | stopDisc : OpBlocks [StreamOp.checkDisc]
  | stopEof : OpBlocks [StreamOp.checkDisc, StreamOp.readChunk]
  | step (rest : List StreamOp) : OpBlocks rest →
      OpBlocks (StreamOp.checkDisc :: StreamOp.readChunk ::
        StreamOp.sendChunk :: rest)

/-- Unfolding equation of the loop on an exhausted stream. -/
theorem streamLoop_nil (dAt : Option Nat) (i : Nat) :
    streamLoop dAt i [] =
      if isDisconnectedAt dAt i then ⟨[], .disconnect, [.checkDisc]⟩
      else ⟨[], .eofOut, [.checkDisc, .readChunk]⟩ := by
  rw [streamLoop]

/-- Unfolding equation of the loop on a nonempty stream. -/
theorem streamLoop_cons (dAt : Option Nat) (i b : Nat) (bs : List Nat) :
    streamLoop dAt i (b :: bs) =
      if isDisconnectedAt dAt i then ⟨[], .disconnect, [.checkDisc]⟩
      else
        ⟨(b :: bs).take chunk_size ::
           (streamLoop dAt (i + 1) ((b :: bs).drop chunk_size)).sent,
         (streamLoop dAt (i + 1) ((b :: bs).drop chunk_size)).endKind,
         .checkDisc :: .readChunk :: .sendChunk ::
           (streamLoop dAt (i + 1) ((b :: bs).drop chunk_size)).ops⟩ := by
  rw [streamLoop]

/-- Without a disconnect, the concatenation of the yielded chunks is exactly
the muxer's output (auxiliary induction on a length bound). -/
theorem streamLoop_join_aux (n : Nat) : ∀ (out : List Nat), out.length ≤ n →
    ∀ i, (streamLoop none i out).sent.flatten = out := by
  induction n with
  | zero =>
    intro out h i
    have he : out = [] := List.length_eq_zero.mp (Nat.le_zero.mp h)
    subst he
    simp [streamLoop_nil, isDisconnectedAt]
  | succ n ih =>
    intro out h i
    match out with
    | [] => simp [streamLoop_nil, isDisconnectedAt]
    | b :: bs =>
      have hlen : ((b :: bs).drop chunk_size).length ≤ n := by
        simp only [List.length_drop, List.length_cons] at *
        simp only [chunk_size] at *
        omega
      have hnd : isDisconnectedAt none i = false := rfl
      rw [streamLoop_cons, hnd]
      simp only [Bool.false_eq_true, if_false, List.flatten_cons]
      rw [ih ((b :: bs).drop chunk_size) hlen (i + 1)]
      exact List.take_append_drop chunk_size (b :: bs)

/-- Every yielded chunk is nonempty and at most chunk_size bytes long. -/
theorem streamLoop_sizes_aux (n : Nat) : ∀ (out : List Nat), out.length ≤ n →
    ∀ dAt i c, c ∈ (streamLoop dAt i out).sent →
      0 < c.length ∧ c.length ≤ chunk_size := by
  induction n with
  | zero =>
    intro out h dAt i c hc
    have he : out = [] := List.length_eq_zero.mp (Nat.le_zero.mp h)
    subst he
    rw [streamLoop_nil] at hc
    rcases Bool.dichotomy (isDisconnectedAt dAt i) with hd | hd <;>
      simp [hd] at hc
  | succ n ih =>
    intro out h dAt i c hc
    match out with
    | [] =>
      rw [streamLoop_nil] at hc
      rcases Bool.dichotomy (isDisconnectedAt dAt i) with hd | hd <;>
        simp [hd] at hc
    | b :: bs =>
      rw [streamLoop_cons] at hc
      rcases Bool.dichotomy (isDisconnectedAt dAt i) with hd | hd
      case inr =>
        rw [hd, if_pos rfl] at hc
        simp at hc
      case inl =>
        rw [hd] at hc
        simp only [Bool.false_eq_true, if_false, List.mem_cons] at hc
        rcases hc with hc | hc
        · subst hc
          constructor
          · simp [List.length_take, chunk_size]
          · simp [List.length_take]
        · have hlen : ((b :: bs).drop chunk_size).length ≤ n := by
            simp only [List.length_drop, List.length_cons] at *
            simp only [chunk_size] at *
            omega
          exact ih ((b :: bs).drop chunk_size) hlen dAt (i + 1) c hc

/-- Every loop trace is well formed. -/
theorem streamLoop_blocks_aux (n : Nat) : ∀ (out : List Nat),
    out.length ≤ n → ∀ dAt i, OpBlocks (streamLoop dAt i out).ops := by
  induction n with
  | zero =>
    intro out h dAt i
    have he : out = [] := List.length_eq_zero.mp (Nat.le_zero.mp h)
    subst he
    rw [streamLoop_nil]
    rcases Bool.dichotomy (isDisconnectedAt dAt i) with hd | hd <;>
      simp [hd]
    · exact OpBlocks.stopEof
    · exact OpBlocks.stopDisc
  | succ n ih =>
    intro out h dAt i
    match out with
    | [] =>
      rw [streamLoop_nil]
      rcases Bool.dichotomy (isDisconnectedAt dAt i) with hd | hd <;>
        simp [hd]
      · exact OpBlocks.stopEof
      · exact OpBlocks.stopDisc
    | b :: bs =>
      rw [streamLoop_cons]
      rcases Bool.dichotomy (isDisconnectedAt dAt i) with hd | hd
      · have hlen : ((b :: bs).drop chunk_size).length ≤ n := by
          simp only [List.length_drop, List.length_cons] at *
          simp only [chunk_size] at *
          omega
        rw [hd]
        simp only [Bool.false_eq_true, if_false]
        exact OpBlocks.step _ (ih ((b :: bs).drop chunk_size) hlen dAt (i + 1))
      · rw [hd, if_pos rfl]
        exact OpBlocks.stopDisc

/-- Whatever the disconnect schedule, the yielded chunks form an initial
segment of the muxer's output in production order. -/
theorem streamLoop_initial_aux (n : Nat) : ∀ (out : List Nat),
    out.length ≤ n → ∀ dAt i,
      ∃ rest, out = (streamLoop dAt i out).sent.flatten ++ rest := by
  induction n with
  | zero =>
    intro out h dAt i
    have he : out = [] := List.length_eq_zero.mp (Nat.le_zero.mp h)
    subst he
    rw [streamLoop_nil]
    rcases Bool.dichotomy (isDisconnectedAt dAt i) with hd | hd <;>
      simp [hd]
  | succ n ih =>
    intro out h dAt i
    match out with
    | [] =>
      rw [streamLoop_nil]
      rcases Bool.dichotomy (isDisconnectedAt dAt i) with hd | hd <;>
        simp [hd]
    | b :: bs =>
      rw [streamLoop_cons]
      rcases Bool.dichotomy (isDisconnectedAt dAt i) with hd | hd
      · have hlen : ((b :: bs).drop chunk_size).length ≤ n := by
          simp only [List.length_drop, List.length_cons] at *
          simp only [chunk_size] at *
          omega
        obtain ⟨r, hr⟩ := ih ((b :: bs).drop chunk_size) hlen dAt (i + 1)
        refine ⟨r, ?_⟩
        rw [hd]
        simp only [Bool.false_eq_true, if_false, List.flatten_cons]
        rw [List.append_assoc, ← hr]
        exact (List.take_append_drop chunk_size (b :: bs)).symm
      · rw [hd, if_pos rfl]
        exact ⟨b :: bs, rfl⟩

/-- C3: the streaming loop reads in fixed chunks of 8 KiB (8192 bytes) with
a well-formed check-then-read iteration structure; a zero-byte read ends the
loop; without a disconnect the forwarded chunks concatenate to exactly the
muxer's output; every forwarded chunk is nonempty and at most one chunk
(8192 bytes) long; and with any disconnect schedule the forwarded bytes are
an initial segment of the muxer's output in production order. -/
theorem c3_stream_loop_forwarding (dAt : Option Nat) (out : List Nat) :
    chunk_size = 8192 ∧
    OpBlocks (streamLoop dAt 0 out).ops ∧
    (streamLoop none 0 out).sent.flatten = out ∧
    (∀ c ∈ (streamLoop dAt 0 out).sent, 0 < c.length ∧ c.length ≤ chunk_size) ∧
    (∃ rest, out = (streamLoop dAt 0 out).sent.flatten ++ rest) :=
  ⟨rfl,
   streamLoop_blocks_aux out.length out (Nat.le_refl _) dAt 0,
   streamLoop_join_aux out.length out (Nat.le_refl _) 0,
   fun c hc => streamLoop_sizes_aux out.length out (Nat.le_refl _) dAt 0 c hc,
   streamLoop_initial_aux out.length out (Nat.le_refl _) dAt 0⟩

/-- The only long option --video_format abbreviates is itself. -/
theorem longMatches_video : longMatches "--video_format" = ["--video_format"] := by
  decide

/-- The only long option --audio_format abbreviates is itself. -/
theorem longMatches_audio : longMatches "--audio_format" = ["--audio_format"] := by
  decide

/-- The token --cookies matches no option the child's parser declares. -/
theorem longMatches_cookies : longMatches "--cookies" = [] := by decide

/-- setLongOpt never changes the positional-only flag. -/
theorem setLongOpt_posOnly (st : ParseState) (o v : String) :
    (setLongOpt st o v).posOnly = st.posOnly := by
  unfold setLongOpt
  split
  · rfl
  · split <;> rfl

/-- setLongOpt never changes the url slot. -/
theorem setLongOpt_url (st : ParseState) (o v : String) :
    (setLongOpt st o v).url = st.url := by
  unfold setLongOpt
  split
  · rfl
  · split <;> rfl

/-- setShortOpt never changes the positional-only flag. -/
theorem setShortOpt_posOnly (st : ParseState) (o v : String) :
    (setShortOpt st o v).posOnly = st.posOnly := by
  unfold setShortOpt
  split
  · rfl
  · split <;> rfl

/-- setShortOpt never changes the url slot. -/
theorem setShortOpt_url (st : ParseState) (o v : String) :
    (setShortOpt st o v).url = st.url := by
  unfold setShortOpt
  split
  · rfl
  · split <;> rfl

/-- A non-dash token fills the empty positional slot. -/
theorem parse_positional_step (st : ParseState) (hpos : st.posOnly = false)
    (tok : String) (htok : tokStartsDash tok = false) (hu : st.url = none)
    (rest : List String) :
    parseTokens st (tok :: rest) =
      parseTokens { st with url := some tok } rest := by
  rw [parseTokens]
  simp [hpos, htok, takePositional, hu]

/-- A non-dash token with the positional slot already filled is an
unrecognized-arguments error. -/
theorem parse_positional_dup (st : ParseState) (hpos : st.posOnly = false)
    (tok : String) (htok : tokStartsDash tok = false) (u : String)
    (hu : st.url = some u) (rest : List String) :
    parseTokens st (tok :: rest) = ChildParse.exitError := by
  rw [parseTokens]
  simp [hpos, htok, takePositional, hu]

/-- In positional-only mode any token fills the empty positional slot. -/
theorem parse_posOnly_step (st : ParseState) (hpos : st.posOnly = true)
    (tok : String) (hu : st.url = none) (rest : List String) :
    parseTokens st (tok :: rest) =
      parseTokens { st with url := some tok } rest := by
  rw [parseTokens]
  simp [hpos, takePositional, hu]

/-- In positional-only mode a second positional is an error. -/
theorem parse_posOnly_dup (st : ParseState) (hpos : st.posOnly = true)
    (tok u : String) (hu : st.url = some u) (rest : List String) :
    parseTokens st (tok :: rest) = ChildParse.exitError := by
  rw [parseTokens]
  simp [hpos, takePositional, hu]

/-- Consuming --video_format and its value. -/
theorem parse_video_format_step (st : ParseState) (hpos : st.posOnly = false)
    (v : String) (rest : List String) :
    parseTokens st ("--video_format" :: v :: rest) =
      parseTokens (setLongOpt st "--video_format" v) rest := by
  rw [parseTokens]
  have h1 : tokStartsDash "--video_format" = true := by decide
  have h2 : tokStartsDashDash "--video_format" = true := by decide
  simp [hpos, h1, h2, longMatches_video]

/-- Consuming --audio_format and its value. -/
theorem parse_audio_format_step (st : ParseState) (hpos : st.posOnly = false)
    (v : String) (rest : List String) :
    parseTokens st ("--audio_format" :: v :: rest) =
      parseTokens (setLongOpt st "--audio_format" v) rest := by
  rw [parseTokens]
  have h1 : tokStartsDash "--audio_format" = true := by decide
  have h2 : tokStartsDashDash "--audio_format" = true := by decide
  simp [hpos, h1, h2, longMatches_audio]

/-- The token --cookies is rejected by the child's parser. -/
theorem parse_cookies_step (st : ParseState) (hpos : st.posOnly = false)
    (p : String) :
    parseTokens st ["--cookies", p] = ChildParse.exitError := by
  rw [parseTokens]
  have h1 : tokStartsDash "--cookies" = true := by decide
  have h2 : tokStartsDashDash "--cookies" = true := by decide
  simp [hpos, h1, h2, longMatches_cookies]

/-- The token "-" alone is positional. -/
theorem parse_positional_step_dash (st : ParseState)
    (hpos : st.posOnly = false) (hu : st.url = none) (rest : List String) :
    parseTokens st ("-" :: rest) =
      parseTokens { st with url := some "-" } rest := by
  rw [parseTokens]
  simp [hpos, takePositional, hu]

/-- The standalone separator switches to positional-only mode. -/
theorem parse_separator_step (st : ParseState) (hpos : st.posOnly = false)
    (rest : List String) :
    parseTokens st ("--" :: rest) =
      parseTokens { st with posOnly := true } rest := by
  rw [parseTokens]
  have h1 : tokStartsDash "--" = true := by decide
  simp [hpos, h1]

/-- The short help option exits. -/
theorem parse_help_short (st : ParseState) (hpos : st.posOnly = false)
    (rest : List String) :
    parseTokens st ("-h" :: rest) = ChildParse.exitHelp := by
  rw [parseTokens]
  have h1 : tokStartsDash "-h" = true := by decide
  have h2 : tokStartsDashDash "-h" = false := by decide
  simp [hpos, h1, h2]

/-- A declared short option consumes the next token as its value. -/
theorem parse_short_consume (st : ParseState) (hpos : st.posOnly = false)
    (tok : String) (htok : tok = "-vf" ∨ tok = "-af" ∨ tok = "-o")
    (v : String) (rest : List String) :
    parseTokens st (tok :: v :: rest) =
      parseTokens (setShortOpt st tok v) rest := by
  rcases htok with h | h | h <;> subst h <;> rw [parseTokens]
  · have h1 : tokStartsDash "-vf" = true := by decide
    have h2 : tokStartsDashDash "-vf" = false := by decide
    simp [hpos, h1, h2]
  · have h1 : tokStartsDash "-af" = true := by decide
    have h2 : tokStartsDashDash "-af" = false := by decide
    simp [hpos, h1, h2]
  · have h1 : tokStartsDash "-o" = true := by decide
    have h2 : tokStartsDashDash "-o" = false := by decide
    simp [hpos, h1, h2]

/-- An unknown single-dash option is an error. -/
theorem parse_short_unknown (st : ParseState) (hpos : st.posOnly = false)
    (tok : String) (hd : tokStartsDash tok = true)
    (hdd : tokStartsDashDash tok = false)
    (h1 : tok ≠ "-") (h0 : tok ≠ "--") (h2 : tok ≠ "-h")
    (h3 : tok ≠ "-vf") (h4 : tok ≠ "-af") (h5 : tok ≠ "-o")
    (rest : List String) :
    parseTokens st (tok :: rest) = ChildParse.exitError := by
  rw [parseTokens]
  simp [hpos, hd, hdd, h1, h0, h2, h3, h4, h5]

/-- A double-dash token matching no declared long option is an error. -/
theorem parse_long_none (st : ParseState) (hpos : st.posOnly = false)
    (tok : String) (hd : tokStartsDash tok = true) (h1 : tok ≠ "-")
    (h0 : tok ≠ "--") (hdd : tokStartsDashDash tok = true)
    (hLM : longMatches tok = []) (rest : List String) :
    parseTokens st (tok :: rest) = ChildParse.exitError := by
  rw [parseTokens]
  simp [hpos, hd, h1, h0, hdd, hLM]

/-- A double-dash token matching exactly one long option either exits with
help or consumes the next token as the option's value. -/
theorem parse_long_single (st : ParseState) (hpos : st.posOnly = false)
    (tok o : String) (hd : tokStartsDash tok = true) (h1 : tok ≠ "-")
    (h0 : tok ≠ "--") (hdd : tokStartsDashDash tok = true)
    (hLM : longMatches tok = [o]) (v : String) (rest : List String) :
    parseTokens st (tok :: v :: rest) =
      if o = "--help" then ChildParse.exitHelp
      else parseTokens (setLongOpt st o v) rest := by
  rw [parseTokens]
  simp [hpos, hd, h1, h0, hdd, hLM]

/-- An ambiguous long-option abbreviation is an error. -/
theorem parse_long_multi (st : ParseState) (hpos : st.posOnly = false)
    (tok o o2 : String) (os : List String) (hd : tokStartsDash tok = true)
    (h1 : tok ≠ "-") (h0 : tok ≠ "--") (hdd : tokStartsDashDash tok = true)
    (hLM : longMatches tok = o :: o2 :: os) (rest : List String) :
    parseTokens st (tok :: rest) = ChildParse.exitError := by
  rw [parseTokens]
  simp [hpos, hd, h1, h0, hdd, hLM]

/-- After the url slot is filled, the remaining controller-built tokens end
in the unrecognized --cookies error. -/
theorem parse_tail_after_url (st : ParseState) (hpos : st.posOnly = false)
    (V A p : String) :
    parseTokens st ["--video_format", V, "--audio_format", A, "--cookies", p] =
      ChildParse.exitError := by
  rw [parse_video_format_step st hpos V]
  rw [parse_audio_format_step _ (by rw [setLongOpt_posOnly]; exact hpos) A]
  exact parse_cookies_step _
    (by rw [setLongOpt_posOnly, setLongOpt_posOnly]; exact hpos) p

/-- When the first token was consumed as an option value, the format
expression fills the url slot and the remaining tokens end in the
unrecognized --cookies error. -/
theorem parse_tail_after_value (st : ParseState) (hpos : st.posOnly = false)
    (hu : st.url = none) (V A p : String) (hV : tokStartsDash V = false) :
    parseTokens st [V, "--audio_format", A, "--cookies", p] =
      ChildParse.exitError := by
  rw [parse_positional_step st hpos V hV hu]
  rw [parse_audio_format_step _ (by simpa using hpos) A]
  exact parse_cookies_step _
    (by rw [setLongOpt_posOnly]; simpa using hpos) p

/-- Whatever the url token looks like, the controller-built argv with a
trailing --cookies option makes the child's parse exit before
download_video runs. -/
theorem parse_with_cookies_exits (url V A p : String)
    (hV : tokStartsDash V = false) :
    parseTokens initParseState
        [url, "--video_format", V, "--audio_format", A, "--cookies", p] =
      ChildParse.exitError ∨
    parseTokens initParseState
        [url, "--video_format", V, "--audio_format", A, "--cookies", p] =
      ChildParse.exitHelp := by
  rcases Bool.dichotomy (tokStartsDash url) with hd | hd
  · left
    rw [parse_positional_step initParseState rfl url hd rfl]
    exact parse_tail_after_url _ rfl V A p
  · by_cases hDash : url = "-"
    · left
      subst hDash
      rw [parse_positional_step_dash initParseState rfl rfl]
      exact parse_tail_after_url _ rfl V A p
    · by_cases hSep : url = "--"
      · left
        subst hSep
        rw [parse_separator_step initParseState rfl]
        rw [parse_posOnly_step _ rfl "--video_format" rfl]
        exact parse_posOnly_dup _ rfl V "--video_format" rfl _
      · rcases Bool.dichotomy (tokStartsDashDash url) with hdd | hdd
        · by_cases hh : url = "-h"
          · right
            subst hh
            exact parse_help_short initParseState rfl _
          · by_cases hvf : url = "-vf"
            · left
              subst hvf
              rw [parse_short_consume initParseState rfl "-vf" (Or.inl rfl)
                "--video_format"]
              exact parse_tail_after_value _
                (by rw [setShortOpt_posOnly]; rfl) (by rw [setShortOpt_url]; rfl) V A p hV
            · by_cases haf : url = "-af"
              · left
                subst haf
                rw [parse_short_consume initParseState rfl "-af"
                  (Or.inr (Or.inl rfl)) "--video_format"]
                exact parse_tail_after_value _
                  (by rw [setShortOpt_posOnly]; rfl) (by rw [setShortOpt_url]; rfl) V A p hV
              · by_cases ho : url = "-o"
                · left
                  subst ho
                  rw [parse_short_consume initParseState rfl "-o"
                    (Or.inr (Or.inr rfl)) "--video_format"]
                  exact parse_tail_after_value _
                    (by rw [setShortOpt_posOnly]; rfl) (by rw [setShortOpt_url]; rfl) V A p hV
                · left
                  exact parse_short_unknown initParseState rfl url hd hdd
                    hDash hSep hh hvf haf ho _
        · cases hLM : longMatches url with
          | nil =>
            left
            exact parse_long_none initParseState rfl url hd hDash hSep hdd hLM _
          | cons o os =>
            cases os with
            | nil =>
              rw [parse_long_single initParseState rfl url o hd hDash hSep hdd
                hLM "--video_format"]
              by_cases hoh : o = "--help"
              · right
                simp [hoh]
              · left
                rw [if_neg hoh]
                exact parse_tail_after_value _
                  (by rw [setLongOpt_posOnly]; rfl) (by rw [setLongOpt_url]; rfl) V A p hV
            | cons o2 os2 =>
              left
              exact parse_long_multi initParseState rfl url o o2 os2 hd hDash
                hSep hdd hLM _

/-- C3 witness: instantiation at a concrete three-byte output with no
disconnect. -/
theorem c3_witness :
    chunk_size = 8192 ∧
    (streamLoop none 0 [1, 2, 3]).sent.flatten = [1, 2, 3] ∧
    (∃ rest, ([1, 2, 3] : List Nat) =
      (streamLoop none 0 [1, 2, 3]).sent.flatten ++ rest) :=
  ⟨(c3_stream_loop_forwarding none [1, 2, 3]).1,
   (c3_stream_loop_forwarding none [1, 2, 3]).2.2.1,
   (c3_stream_loop_forwarding none [1, 2, 3]).2.2.2.2⟩

set_option maxRecDepth 2000 in
/-- The generated video format expression never looks like an option
token: it always starts with an opening parenthesis. -/
theorem tokStartsDash_video_format_arg (q : String) :
    tokStartsDash (video_format_arg q) = false := by
  obtain ⟨r, hr⟩ : ∃ r, (video_format_arg q).data = '(' :: r := by
    simp [video_format_arg, String.data_append]
  simp [tokStartsDash, hr]

/-- The default video format expression never looks like an option token. -/
theorem tokStartsDash_video_format_default :
    tokStartsDash video_format_arg_default = false := by decide

/-- C10 counterexample: the streaming cookie setting can be non-None yet
empty (the env var set to the empty string); the truthiness guard on
main.py line 181 then appends no --cookies option, the child's parse
succeeds, and the pipeline runs and spawns the fetch processes — so a
non-None setting does not make the controller append --cookies, nor every
such invocation rejected. -/
theorem c10_counterexample :
    "--cookies" ∉ streamScriptArgs "http://example.com" none (some "") ∧
    streamScriptArgs "http://example.com" none (some "") =
      ["http://example.com", "--video_format", video_format_arg_default,
       "--audio_format", audio_format_arg] ∧
    ytdl_pipe_merge_main (streamScriptArgs "http://example.com" none (some ""))
        3 4 =
      ChildRun.runs (downloadVideoTrace "http://example.com"
        video_format_arg_default audio_format_arg none 3 4) := by
  have htok : streamScriptArgs "http://example.com" none (some "") =
      ["http://example.com", "--video_format", video_format_arg_default,
       "--audio_format", audio_format_arg] := by decide
  refine ⟨by decide, htok, ?_⟩
  have hparse : parseTokens initParseState
      ["http://example.com", "--video_format", video_format_arg_default,
       "--audio_format", audio_format_arg] =
      ChildParse.ok "http://example.com" video_format_arg_default
        audio_format_arg none := by
    rw [parse_positional_step initParseState rfl "http://example.com"
      (by decide) rfl]
    rw [parse_video_format_step _ rfl video_format_arg_default]
    rw [parse_audio_format_step _ (by rw [setLongOpt_posOnly]; rfl)
      audio_format_arg]
    rw [parseTokens]
    simp [setLongOpt, initParseState]
  have hs : urlSchemeOk "http://example.com" = true := by decide
  rw [htok]
  simp [ytdl_pipe_merge_main, hparse, hs]

/-- C10 amended: when the configured streaming cookie path is truthy
(non-None and nonempty — the guard on main.py line 181 is Python
truthiness), the controller appends --cookies and the path to the child
script's argument list, but the child's argument parser accepts only the
positional url and the video_format, audio_format and output options, so
every such invocation exits during argument parsing (error or help),
before any fetch process is spawned; a non-None but empty setting appends
nothing. -/
theorem c10_cookie_invocation_rejected (url : String)
    (qualityPref : Option String) (p : String) (hp : p ≠ "")
    (vFd aFd : Nat) :
    streamScriptArgs url qualityPref (some p) =
      streamScriptArgs url qualityPref none ++ ["--cookies", p] ∧
    ytdl_pipe_merge_main (streamScriptArgs url qualityPref (some p)) vFd aFd =
      ChildRun.rejected := by
  have hT : pyTruthy (some p) = true := pyTruthy_of_ne p hp
  have hN : pyTruthy none = false := rfl
  constructor
  · simp [streamScriptArgs, hT, hN]
  · have hform : streamScriptArgs url qualityPref (some p) =
        [url, "--video_format",
         (if pyTruthy qualityPref then video_format_arg (qualityPref.getD "")
          else video_format_arg_default),
         "--audio_format", audio_format_arg, "--cookies", p] := by
      by_cases hq : pyTruthy qualityPref <;> simp [streamScriptArgs, hq, hT]
    rw [hform]
    have hV : tokStartsDash
        (if pyTruthy qualityPref then video_format_arg (qualityPref.getD "")
         else video_format_arg_default) = false := by
      by_cases hq : pyTruthy qualityPref <;>
        simp [hq, tokStartsDash_video_format_arg,
          tokStartsDash_video_format_default]
    rcases parse_with_cookies_exits url _ audio_format_arg p hV with h | h <;>
      simp [ytdl_pipe_merge_main, h]

/-- C10 witness: a nonempty cookie path at a concrete invocation. -/
theorem c10_witness :
    ("cookies.txt" : String) ≠ "" ∧
    ytdl_pipe_merge_main
        (streamScriptArgs "http://example.com" none (some "cookies.txt")) 3 4 =
      ChildRun.rejected :=
  ⟨by decide,
   (c10_cookie_invocation_rejected "http://example.com" none "cookies.txt"
     (by decide) 3 4).2⟩

/-- C7 witness: exit code 1 with stderr ERROR: Unsupported URL yields a 400
whose detail contains that text. -/
theorem c7_witness :
    get_video_info_res (fun _ => false)
      ⟨1, [], "ERROR: Unsupported URL".toList.map Char.toNat⟩ =
      InfoResult.httpError 400
        ("Failed to get video info: ".toList ++
          pyStrip (bestEffortDecode
            ("ERROR: Unsupported URL".toList.map Char.toNat))) ∧
    pyStrip (bestEffortDecode ("ERROR: Unsupported URL".toList.map Char.toNat)) =
      "ERROR: Unsupported URL".toList :=
  ⟨(c7_metadata_error_handling (fun _ => false) _).1 (by decide), by decide⟩

end Videochiller
